import Mathlib

/-!
Shallow embedding of the adaptive RAG workflow from `src/rag/workflow.py` and
`src/rag/evaluation.py`, together with a graph engine modelled from the spec
(the LangGraph engine itself is an external library, not part of this
repository).  Python floats are modelled as rationals; a Python exception is
modelled as `none` / an explicit error value.
-/

/-- Embeds `EvaluationModel` from `src/rag/evaluation.py` (lines 14-25):
a boolean `score` ("whether the workflow results are valid") and a float
`relevance_score` with default `0.5`, constrained to `[0, 1]`. -/
structure EvaluationModel where
  score : Bool
  relevance_score : ℚ := 1/2
deriving DecidableEq, Repr

/-- Embeds `langchain_core.documents.Document` as used by the workflow:
only the `page_content` text is ever consulted. -/
structure Document where
  page_content : String
deriving DecidableEq, Repr

/-- Embeds the `State` TypedDict of `src/rag/workflow.py` (lines 20-35).
Absent keys are modelled by the listed defaults (matching the `.get`
defaults the stage functions use; `document_relevance_score` and
`question_relevance_score` are absent unless written). -/
structure State where
  question : String := ""
  solution : String := ""
  online_search : Bool := false
  documents : List Document := []
  document_evaluations : List (Option EvaluationModel) := []
  document_relevance_score : Option EvaluationModel := none
  question_relevance_score : Option EvaluationModel := none
deriving DecidableEq, Repr

/-- The external capabilities the workflow consumes (retriever, relevance
judge, web search, faithfulness judge, coverage judge, answer generator).
`retriever` returns `none` when the call raises (the `except` branch of
`_retrieve`); the relevance judge returns `none` when the structured-output
chain yields `None` (the code guards `if agent_response`). -/
structure Capabilities where
  retriever : String → Option (List Document)
  relevanceJudge : String → String → Option EvaluationModel
  webSearch : String → List String
  faithfulnessJudge : List Document → String → EvaluationModel
  coverageJudge : String → String → EvaluationModel
  solution_generator : List Document → String → String

namespace RAGWorkflow

/-- Embeds the Python truthiness test `agent_response and
agent_response.relevance_score >= 0.75` from `_evaluate` (line 127):
`None` is falsy, a pydantic model instance is always truthy, so the test
holds iff a judgment is present and its `relevance_score` is at least
`0.75`.  Note the boolean `score` field is not consulted. -/
def confidentJudgment : Option EvaluationModel → Bool
  | some r => decide (r.relevance_score ≥ 3/4)
  | none => false

/-- Update dictionary returned by `_retrieve`: `online_search` is present
only in the fallback branch. -/
structure RetrieveUpdate where
  documents : List Document
  question : String
  online_search : Option Bool
deriving DecidableEq, Repr

/-- Embeds `RAGWorkflow._retrieve` (`src/rag/workflow.py` lines 98-109):
on success returns `{documents, question}`; if the retriever raises, the
exception is caught and `{documents: [], question, online_search: True}`
is returned instead. -/
def retrieve (caps : Capabilities) (state : State) : RetrieveUpdate :=
  let question := state.question
  match caps.retriever question with
  | some documents => ⟨documents, question, none⟩
  | none => ⟨[], question, some true⟩

/-- Update dictionary returned by `_evaluate`. -/
structure EvaluateUpdate where
  documents : List Document
  question : String
  online_search : Bool
  document_evaluations : List (Option EvaluationModel)
deriving DecidableEq, Repr

/-- Embeds `RAGWorkflow._evaluate` (`src/rag/workflow.py` lines 113-135).
The loop judges each document in order (the judge is invoked once per
document, so the loop is a `map` plus a `filter`), then the return
dictionary computes `len(filtered_documents) / len(documents)`.  When
`documents` is empty this is Python's `0 / 0` on integers, which raises
`ZeroDivisionError`; the raise is modelled as `none`. -/
def evaluate (judge : String → String → Option EvaluationModel)
    (question : String) (documents : List Document) : Option EvaluateUpdate :=
  let document_evaluations := documents.map (fun d => judge question d.page_content)
  let filtered_documents :=
    documents.filter (fun d => confidentJudgment (judge question d.page_content))
  if documents.length = 0 then
    none
  else
    some ⟨filtered_documents, question,
      decide (((filtered_documents.length : ℚ) / (documents.length : ℚ)) < 7/10),
      document_evaluations⟩

/-- Embeds the body-joining of `_search_online` (line 147): each result body
is stripped of surrounding whitespace and the bodies are joined with a
blank line into a single string. -/
def joinBodies (bodies : List String) : String :=
  String.intercalate "\n\n" (bodies.map String.trim)

/-- Update dictionary returned by `_search_online`. -/
structure SearchUpdate where
  documents : List Document
  question : String
deriving DecidableEq, Repr

/-- Embeds `RAGWorkflow._search_online` (`src/rag/workflow.py` lines
139-158): the search results are merged into one `Document` whose content
joins all stripped bodies, and that single document is appended to the
existing list (the `documents is not None` branch; the state's list is
never `None` once Retrieve has run). -/
def search_online (search : String → List String) (state : State) : SearchUpdate :=
  let results : Document := ⟨joinBodies (search state.question)⟩
  ⟨state.documents ++ [results], state.question⟩

/-- Embeds `RAGWorkflow._retrieved_docs_relevant` (lines 162-166). -/
def retrieved_docs_relevant (state : State) : String :=
  if state.online_search then "Search Online" else "Generate Answer"

/-- Update dictionary returned by `_generate_answer`. -/
structure GenerateUpdate where
  documents : List Document
  question : String
  solution : String
deriving DecidableEq, Repr

/-- Embeds `RAGWorkflow._generate_answer` (lines 201-211): invokes the
generator chain on the current documents and question and returns the
produced solution. -/
def generate_answer (generator : List Document → String → String)
    (state : State) : GenerateUpdate :=
  ⟨state.documents, state.question, generator state.documents state.question⟩

/-- Result of the `_check_hallucinations` decision: the returned route
label, plus the judgments the function computed and assigned into its local
`state` argument (`question_relevance_score` is `some` exactly when the
coverage judge was invoked). -/
structure CheckResult where
  route : String
  document_relevance_score : EvaluationModel
  question_relevance_score : Option EvaluationModel
deriving DecidableEq, Repr

/-- Embeds `RAGWorkflow._check_hallucinations` (`src/rag/workflow.py`
lines 170-197): the faithfulness chain is always invoked; if its boolean
`score` is truthy the coverage chain is invoked and the route is
`Answers Question` when the coverage `score` is truthy, otherwise
`Question not addressed`; if the faithfulness `score` is falsy the route is
`Hallucinations detected` and the coverage chain is never invoked.  No
`relevance_score` (confidence) value is consulted anywhere. -/
def check_hallucinations (faithJudge : List Document → String → EvaluationModel)
    (covJudge : String → String → EvaluationModel) (state : State) : CheckResult :=
  let document_relevance_score := faithJudge state.documents state.solution
  if document_relevance_score.score then
    let question_relevance_score := covJudge state.question state.solution
    if question_relevance_score.score then
      ⟨"Answers Question", document_relevance_score, some question_relevance_score⟩
    else
      ⟨"Question not addressed", document_relevance_score, some question_relevance_score⟩
  else
    ⟨"Hallucinations detected", document_relevance_score, none⟩

end RAGWorkflow

namespace GraphEngine

/-- The stages of the workflow graph built by `RAGWorkflow._buid_graph`
(`src/rag/workflow.py` lines 57-86).  `checkSolution` is the combined
stage-plus-router decision attached to `Generate Answer` (the spec's
CheckSolution; in the source it is the `_check_hallucinations` conditional
edge). -/
inductive Node where
  | retrieveDocs
  | evaluateDocs
  | searchOnline
  | generateAnswer
  | checkSolution
deriving DecidableEq, Repr

/-- Run-level failures: `recursionLimitExceeded` carries the last known
state (spec section 4.1); `zeroDivision` models the uncaught
`ZeroDivisionError` raised by `_evaluate` on an empty document list. -/
inductive RunError where
  | recursionLimitExceeded (last : State)
  | zeroDivision (last : State)
deriving DecidableEq, Repr

/-- Modelled from the spec: the GraphEngine execution loop (spec section
4.1) — the LangGraph engine driving the compiled `StateGraph` is an
external library, not code of this repository.  Each stage visit costs one
unit of step budget; a stage's returned partial update is merged into the
state (fields absent from the update are left untouched); routers select
the next stage name and, being conditional-edge functions, cannot write to
the graph state (spec section 4.4: a router is a pure function with no
side effects), so the judgment assignments `_check_hallucinations` makes
on its local `state` argument are not merged.  Exhausting the budget
before END yields `recursionLimitExceeded` with the last known state. -/
def runFrom (caps : Capabilities) :
    Node → State → List Node → Nat → Except RunError (State × List Node)
  | _, s, _, 0 => .error (.recursionLimitExceeded s)
  | .retrieveDocs, s, visited, fuel+1 =>
      let u := RAGWorkflow.retrieve caps s
      let s' := { s with
                  documents := u.documents
                  question := u.question
                  online_search := u.online_search.getD s.online_search }
      runFrom caps .evaluateDocs s' (visited ++ [.retrieveDocs]) fuel
  | .evaluateDocs, s, visited, fuel+1 =>
      match RAGWorkflow.evaluate caps.relevanceJudge s.question s.documents with
      | none => .error (.zeroDivision s)
      | some u =>
          let s' := { s with
                      documents := u.documents
                      question := u.question
                      online_search := u.online_search
                      document_evaluations := u.document_evaluations }
          let next := if RAGWorkflow.retrieved_docs_relevant s' = "Search Online"
                      then Node.searchOnline else Node.generateAnswer
          runFrom caps next s' (visited ++ [.evaluateDocs]) fuel
  | .searchOnline, s, visited, fuel+1 =>
      let u := RAGWorkflow.search_online caps.webSearch s
      let s' := { s with
                  documents := u.documents
                  question := u.question }
      runFrom caps .generateAnswer s' (visited ++ [.searchOnline]) fuel
  | .generateAnswer, s, visited, fuel+1 =>
      let u := RAGWorkflow.generate_answer caps.solution_generator s
      let s' := { s with
                  documents := u.documents
                  question := u.question
                  solution := u.solution }
      runFrom caps .checkSolution s' (visited ++ [.generateAnswer]) fuel
  | .checkSolution, s, visited, fuel+1 =>
      let r := RAGWorkflow.check_hallucinations
                 caps.faithfulnessJudge caps.coverageJudge s
      let visited' := visited ++ [.checkSolution]
      if r.route = "Answers Question" then
        .ok (s, visited')
      else if r.route = "Hallucinations detected" then
        runFrom caps .generateAnswer s visited' fuel
      else
        runFrom caps .searchOnline s visited' fuel

/-- Modelled from the spec: `GraphEngine.run` (spec sections 4.1 and 6) —
constructs the initial state holding only the question (`documents = []`,
all other fields absent) and drives the graph from Retrieve, returning the
final state and the ordered list of visited stages, or a run error. -/
def run (caps : Capabilities) (question : String) (step_budget : Nat) :
    Except RunError (State × List Node) :=
  runFrom caps .retrieveDocs { question := question } [] step_budget

end GraphEngine

/-- Reference predicate following the spec's filter rule (spec section 4.3,
claim C3): a document is retained iff its judgment is present with
`valid = true` AND confidence at least `0.75`. -/
def specRetained : Option EvaluationModel → Bool
  | some r => r.score && decide (r.relevance_score ≥ 3/4)
  | none => false

/-- Reference route function following the spec's CheckSolution decision
(spec section 4.7, claim C4), with the `0.65` faithfulness and coverage
confidence thresholds the spec postulates. -/
def specCheckRoute (fj : List Document → String → EvaluationModel)
    (cj : String → String → EvaluationModel) (s : State) : String :=
  let f := fj s.documents s.solution
  if f.score = false ∨ f.relevance_score ≤ 13/20 then "Hallucinations detected"
  else
    let c := cj s.question s.solution
    if c.score = true ∧ c.relevance_score > 13/20 then "Answers Question"
    else "Question not addressed"

/-- Reference route function for the amended C4: the source decision
consults only the boolean `score` flags, never a confidence value. -/
def routeOnValidityOnly (fj : List Document → String → EvaluationModel)
    (cj : String → String → EvaluationModel) (s : State) : String :=
  if (fj s.documents s.solution).score then
    if (cj s.question s.solution).score then "Answers Question"
    else "Question not addressed"
  else "Hallucinations detected"

/-- A relevance judge that marks every document invalid (`score = false`)
but with high confidence `0.8`; used to probe the filter rule. -/
def judgeInvalidHigh : String → String → Option EvaluationModel :=
  fun _ _ => some ⟨false, 4/5⟩

/-- Capabilities whose retriever always faults; the judges and generator
are benign. -/
def faultingCaps : Capabilities where
  retriever := fun _ => none
  relevanceJudge := fun _ _ => some ⟨true, 1⟩
  webSearch := fun _ => ["w"]
  faithfulnessJudge := fun _ _ => ⟨true, 1⟩
  coverageJudge := fun _ _ => ⟨true, 1⟩
  solution_generator := fun _ _ => "A"

/-- Capabilities where every call succeeds with full confidence. -/
def idealCaps : Capabilities where
  retriever := fun _ => some [⟨"doc1"⟩]
  relevanceJudge := fun _ _ => some ⟨true, 1⟩
  webSearch := fun _ => ["w"]
  faithfulnessJudge := fun _ _ => ⟨true, 1⟩
  coverageJudge := fun _ _ => ⟨true, 1⟩
  solution_generator := fun _ _ => "An answer"

/-- The final state of the successful `idealCaps` run. -/
def idealFinal : State :=
  { question := "Q", solution := "An answer", online_search := false,
    documents := [⟨"doc1"⟩], document_evaluations := [some ⟨true, 1⟩] }

/-- C1: the claim says an empty `documents` input to Evaluate must not
divide by zero and must yield `needs_web_search = true` with zero judge
calls.  The code instead computes `len(filtered_documents) / len(documents)`
with no guard, which on an empty list is Python's integer `0 / 0` and
raises `ZeroDivisionError` (modelled as `none`): the stage returns no
update at all. -/
theorem evaluate_empty_documents_raises
    (judge : String → String → Option EvaluationModel) (q : String) :
    RAGWorkflow.evaluate judge q [] = none := rfl

/-- C2: for a non-empty documents input, Evaluate's `online_search` flag is
true iff the count of judgments with confidence at least `0.75`, divided by
the count of judgments (the pre-filter document count), is strictly below
`0.7`; and if every judgment is confident the flag is false. -/
theorem evaluate_relevance_ratio (judge : String → String → Option EvaluationModel)
    (q : String) (docs : List Document) (u : RAGWorkflow.EvaluateUpdate)
    (hne : docs ≠ [])
    (hu : RAGWorkflow.evaluate judge q docs = some u) :
    (u.online_search = true ↔
      ((u.document_evaluations.countP RAGWorkflow.confidentJudgment : ℚ) /
        (u.document_evaluations.length : ℚ) < 7/10)) ∧
    ((∀ j ∈ u.document_evaluations, RAGWorkflow.confidentJudgment j = true) →
      u.online_search = false) := by
  have hlen0 : docs.length ≠ 0 := fun hh => hne (List.length_eq_zero.mp hh)
  simp only [RAGWorkflow.evaluate, if_neg hlen0, Option.some.injEq] at hu
  subst hu
  have hcount : (docs.map (fun d => judge q d.page_content)).countP
      RAGWorkflow.confidentJudgment =
      (docs.filter (fun d =>
        RAGWorkflow.confidentJudgment (judge q d.page_content))).length := by
    rw [List.countP_map, List.countP_eq_length_filter]
    rfl
  constructor
  · simp only [decide_eq_true_iff, hcount, List.length_map]
  · intro hall
    have hfull : (docs.map (fun d => judge q d.page_content)).countP
        RAGWorkflow.confidentJudgment =
        (docs.map (fun d => judge q d.page_content)).length :=
      List.countP_eq_length.mpr hall
    have hq : ((docs.length : ℚ)) ≠ 0 := Nat.cast_ne_zero.mpr hlen0
    simp only [hcount.symm, hfull, List.length_map, div_self hq]
    norm_num

/-- A relevance judge giving confidence `0.8` to document text `a` and
confidence `0.5` to anything else, all marked valid. -/
def ratioWitnessJudge : String → String → Option EvaluationModel :=
  fun _ c => if c = "a" then some ⟨true, 4/5⟩ else some ⟨true, 1/2⟩

/-- The update `ratioWitnessJudge` produces on documents `[a, b]`. -/
def ratioWitnessUpdate : RAGWorkflow.EvaluateUpdate :=
  ⟨[⟨"a"⟩], "q", true, [some ⟨true, 4/5⟩, some ⟨true, 1/2⟩]⟩

/-- Witness for C2: with two documents judged at confidence `0.8` and
`0.5`, the confident ratio is `1/2 < 0.7`, so `online_search` is true. -/
theorem evaluate_relevance_ratio_witness :
    (ratioWitnessUpdate.online_search = true ↔
      ((ratioWitnessUpdate.document_evaluations.countP
          RAGWorkflow.confidentJudgment : ℚ) /
        (ratioWitnessUpdate.document_evaluations.length : ℚ) < 7/10)) ∧
    ((∀ j ∈ ratioWitnessUpdate.document_evaluations,
        RAGWorkflow.confidentJudgment j = true) →
      ratioWitnessUpdate.online_search = false) :=
  evaluate_relevance_ratio ratioWitnessJudge "q" [⟨"a"⟩, ⟨"b"⟩] ratioWitnessUpdate
    (by decide)
    (by
      simp [RAGWorkflow.evaluate, RAGWorkflow.confidentJudgment,
        ratioWitnessJudge, ratioWitnessUpdate, List.filter, List.map]
      norm_num)

/-- Counterexample to C3: a document whose judgment has `valid = false`
and confidence `0.8` is retained by the code (the filter tests only
truthiness and `relevance_score >= 0.75`, never the `score` flag), while
the spec's filter rule says it must be dropped. -/
theorem evaluate_retains_invalid_judgment :
    RAGWorkflow.evaluate judgeInvalidHigh "q" [⟨"d"⟩] =
      some ⟨[⟨"d"⟩], "q", false, [some ⟨false, 4/5⟩]⟩ ∧
    specRetained (judgeInvalidHigh "q" "d") = false := by
  constructor
  · norm_num [RAGWorkflow.evaluate, RAGWorkflow.confidentJudgment, judgeInvalidHigh]
  · norm_num [specRetained, judgeInvalidHigh]

/-- C3 amended: a document passed through Evaluate appears in the filtered
documents iff a judgment was returned for it (not `None`) with confidence
at least `0.75` — the threshold is inclusive, and the judgment's `valid`
flag is not consulted. -/
theorem evaluate_filter_rule (judge : String → String → Option EvaluationModel)
    (q : String) (docs : List Document) (u : RAGWorkflow.EvaluateUpdate)
    (d : Document)
    (hu : RAGWorkflow.evaluate judge q docs = some u) :
    d ∈ u.documents ↔
      d ∈ docs ∧ RAGWorkflow.confidentJudgment (judge q d.page_content) = true := by
  by_cases hne : docs = []
  · subst hne
    simp [RAGWorkflow.evaluate] at hu
  · have hlen0 : docs.length ≠ 0 := fun hh => hne (List.length_eq_zero.mp hh)
    simp only [RAGWorkflow.evaluate, if_neg hlen0, Option.some.injEq] at hu
    subst hu
    simp [List.mem_filter]

/-- A relevance judge that always returns a valid judgment at the exact
threshold confidence `0.75`. -/
def judgeAtThreshold : String → String → Option EvaluationModel :=
  fun _ _ => some ⟨true, 3/4⟩

/-- The update `judgeAtThreshold` produces on the one-document list. -/
def filterWitnessUpdate : RAGWorkflow.EvaluateUpdate :=
  ⟨[⟨"a"⟩], "q", false, [some ⟨true, 3/4⟩]⟩

/-- Witness for the amended C3: a document judged at exactly `0.75` is
retained (inclusive threshold). -/
theorem evaluate_filter_rule_witness :
    (⟨"a"⟩ : Document) ∈ filterWitnessUpdate.documents ↔
      (⟨"a"⟩ : Document) ∈ ([⟨"a"⟩] : List Document) ∧
      RAGWorkflow.confidentJudgment
        (judgeAtThreshold "q" (Document.mk "a").page_content) = true :=
  evaluate_filter_rule judgeAtThreshold "q" [⟨"a"⟩] filterWitnessUpdate ⟨"a"⟩
    (by norm_num [RAGWorkflow.evaluate, RAGWorkflow.confidentJudgment,
      judgeAtThreshold, filterWitnessUpdate])

/-- Counterexample to C4: with a faithfulness judgment of
`{valid: true, confidence: 0.0}` (confidence well below `0.65`) the spec's
route is `Hallucinations detected`, but the code — which never consults a
confidence value — invokes the coverage judge and routes to
`Answers Question`. -/
theorem check_hallucinations_ignores_confidence :
    (RAGWorkflow.check_hallucinations (fun _ _ => ⟨true, 0⟩) (fun _ _ => ⟨true, 0⟩)
        { question := "Q", solution := "A" }).route = "Answers Question" ∧
    specCheckRoute (fun _ _ => ⟨true, 0⟩) (fun _ _ => ⟨true, 0⟩)
        { question := "Q", solution := "A" } = "Hallucinations detected" ∧
    ("Answers Question" : String) ≠ "Hallucinations detected" := by
  refine ⟨by simp [RAGWorkflow.check_hallucinations], ?_, by simp⟩
  simp [specCheckRoute]
  norm_num

/-- C4 amended: the CheckSolution decision routes on the boolean validity
flags only — `Hallucinations detected` iff the faithfulness judgment's
`valid` is false (and only then is the coverage judge skipped:
`question_relevance_score` is computed exactly when faithfulness is valid);
otherwise `Answers Question` iff the coverage judgment's `valid` is true,
else `Question not addressed`.  No `0.65` confidence threshold exists in
the code. -/
theorem check_hallucinations_route_characterization
    (fj : List Document → String → EvaluationModel)
    (cj : String → String → EvaluationModel) (s : State) :
    (RAGWorkflow.check_hallucinations fj cj s).route = routeOnValidityOnly fj cj s ∧
    ((RAGWorkflow.check_hallucinations fj cj s).question_relevance_score.isSome =
      (fj s.documents s.solution).score) := by
  unfold RAGWorkflow.check_hallucinations routeOnValidityOnly
  cases hf : (fj s.documents s.solution).score <;>
    cases hc : (cj s.question s.solution).score <;> simp [hf, hc]

/-- C5: with a retriever always returning a fixed non-empty document list,
a relevance judge always answering `{valid: true, confidence: 1.0}`,
faithfulness and coverage judges always answering
`{valid: true, confidence: 1.0}`, and a generator producing a non-empty
answer, `run "Q" 10` reaches END in exactly the four stage visits
Retrieve, Evaluate, GenerateAnswer, CheckSolution, and the returned
state's solution is the generator's non-empty string. -/
theorem run_ideal_judges_terminates (docs0 : List Document) (h : docs0 ≠ [])
    (w : String → List String) (g : List Document → String → String)
    (hg : ∀ ds q, g ds q ≠ "") :
    GraphEngine.run
      ⟨fun _ => some docs0, fun _ _ => some ⟨true, 1⟩, w,
       fun _ _ => ⟨true, 1⟩, fun _ _ => ⟨true, 1⟩, g⟩ "Q" 10 =
      .ok ({ question := "Q", solution := g docs0 "Q", online_search := false,
             documents := docs0,
             document_evaluations := docs0.map (fun _ => some ⟨true, 1⟩) },
           [.retrieveDocs, .evaluateDocs, .generateAnswer, .checkSolution]) ∧
    g docs0 "Q" ≠ "" := by
  have hlen : ((docs0.length : ℚ)) ≠ 0 :=
    Nat.cast_ne_zero.mpr (fun hh => h (List.length_eq_zero.mp hh))
  refine ⟨?_, hg docs0 "Q"⟩
  norm_num [GraphEngine.run, GraphEngine.runFrom, RAGWorkflow.retrieve,
    RAGWorkflow.evaluate, RAGWorkflow.confidentJudgment, RAGWorkflow.search_online,
    RAGWorkflow.retrieved_docs_relevant, RAGWorkflow.generate_answer,
    RAGWorkflow.check_hallucinations, div_self hlen, h]

/-- Witness for C5 at the concrete ideal capabilities. -/
theorem run_ideal_judges_terminates_witness :
    GraphEngine.run
      ⟨fun _ => some [⟨"doc1"⟩], fun _ _ => some ⟨true, 1⟩, fun _ => ["w"],
       fun _ _ => ⟨true, 1⟩, fun _ _ => ⟨true, 1⟩, fun _ _ => "An answer"⟩ "Q" 10 =
      .ok ({ question := "Q", solution := "An answer", online_search := false,
             documents := [⟨"doc1"⟩],
             document_evaluations := [(⟨"doc1"⟩ : Document)].map
               (fun _ => some ⟨true, 1⟩) },
           [.retrieveDocs, .evaluateDocs, .generateAnswer, .checkSolution]) ∧
    ("An answer" : String) ≠ "" :=
  run_ideal_judges_terminates [⟨"doc1"⟩] (by decide) (fun _ => ["w"])
    (fun _ _ => "An answer") (fun _ _ => show ("An answer" : String) ≠ "" by decide)

/-- Counterexample to C6: with a web search returning two results and an
empty prior document list, SearchOnline produces one merged document, so
`len(documents_after) = 1` differs from
`len(documents_before) + len(search_results) = 0 + 2`. -/
theorem search_online_merges_into_one_document :
    (RAGWorkflow.search_online (fun _ => ["r1", "r2"])
        { question := "Q", documents := [] }).documents.length = 1 ∧
    ((fun (_ : String) => ["r1", "r2"]) "Q").length = 2 ∧
    (1 : Nat) ≠ 0 + 2 := by
  refine ⟨by simp [RAGWorkflow.search_online], by simp, by decide⟩

/-- C6 amended: SearchOnline is append-only, but it appends exactly one
document — the concatenation of all stripped result bodies — so
`len(documents_after) = len(documents_before) + 1` regardless of the
number of search results, and every pre-existing document is kept in
place. -/
theorem search_online_appends_single_document (search : String → List String)
    (s : State) :
    (RAGWorkflow.search_online search s).documents =
      s.documents ++ [⟨RAGWorkflow.joinBodies (search s.question)⟩] ∧
    (RAGWorkflow.search_online search s).documents.length =
      s.documents.length + 1 := by
  simp [RAGWorkflow.search_online]

/-- C7: when the retriever faults, `_retrieve` catches the fault and
returns the fallback update `{documents: [], question, online_search:
true}` — that part of the claim holds — but the run does not then proceed
to SearchOnline: the unconditional edge leads into Evaluate, which divides
by zero on the empty document list, so the run halts with the modelled
`ZeroDivisionError` while `documents` is still empty. -/
theorem retrieve_fault_run_halts_in_evaluate :
    RAGWorkflow.retrieve faultingCaps { question := "Q" } = ⟨[], "Q", some true⟩ ∧
    GraphEngine.run faultingCaps "Q" 10 =
      .error (.zeroDivision
        { question := "Q", documents := [], online_search := true }) := by
  constructor
  · simp [RAGWorkflow.retrieve, faultingCaps]
  · simp [GraphEngine.run, GraphEngine.runFrom, RAGWorkflow.retrieve,
      RAGWorkflow.evaluate, faultingCaps]

/-- C8: with judges that always answer `{valid: false, confidence: 0.0}`
(and a retriever returning a fixed non-empty list), `run "Q" 3` exhausts
the step budget — Retrieve, Evaluate, SearchOnline consume it — and fails
with `recursionLimitExceeded` carrying the last known state (the state
after SearchOnline), rather than looping forever or succeeding. -/
theorem run_budget_exhaustion (docs0 : List Document) (h : docs0 ≠ [])
    (w : String → List String) (g : List Document → String → String) :
    GraphEngine.run
      ⟨fun _ => some docs0, fun _ _ => some ⟨false, 0⟩, w,
       fun _ _ => ⟨false, 0⟩, fun _ _ => ⟨false, 0⟩, g⟩ "Q" 3 =
      .error (.recursionLimitExceeded
        { question := "Q", online_search := true,
          documents := [⟨RAGWorkflow.joinBodies (w "Q")⟩],
          document_evaluations := docs0.map (fun _ => some ⟨false, 0⟩) }) := by
  norm_num [GraphEngine.run, GraphEngine.runFrom, RAGWorkflow.retrieve,
    RAGWorkflow.evaluate, RAGWorkflow.confidentJudgment, RAGWorkflow.search_online,
    RAGWorkflow.retrieved_docs_relevant, RAGWorkflow.generate_answer,
    RAGWorkflow.check_hallucinations, h]

/-- Witness for C8 at concrete always-failing judges. -/
theorem run_budget_exhaustion_witness :
    GraphEngine.run
      ⟨fun _ => some [⟨"doc1"⟩], fun _ _ => some ⟨false, 0⟩, fun _ => ["w"],
       fun _ _ => ⟨false, 0⟩, fun _ _ => ⟨false, 0⟩, fun _ _ => "A"⟩ "Q" 3 =
      .error (.recursionLimitExceeded
        { question := "Q", online_search := true,
          documents := [⟨RAGWorkflow.joinBodies ((fun (_ : String) => ["w"]) "Q")⟩],
          document_evaluations := [(⟨"doc1"⟩ : Document)].map
            (fun _ => some ⟨false, 0⟩) }) :=
  run_budget_exhaustion [⟨"doc1"⟩] (by decide) (fun _ => ["w"]) (fun _ _ => "A")

/-- C9: in a successful run the judgments computed by the
`_check_hallucinations` decision are not merged into the graph state — the
decision is wired as a conditional edge, whose writes to its local state
argument the engine discards — so the returned state's
`document_relevance_score` and `question_relevance_score` are absent
(`none`) even though the decision did compute both judgments on the very
state the run returns. -/
theorem run_final_state_lacks_judgments :
    GraphEngine.run idealCaps "Q" 10 =
      .ok (idealFinal,
        [.retrieveDocs, .evaluateDocs, .generateAnswer, .checkSolution]) ∧
    idealFinal.document_relevance_score = none ∧
    idealFinal.question_relevance_score = none ∧
    (RAGWorkflow.check_hallucinations idealCaps.faithfulnessJudge
        idealCaps.coverageJudge idealFinal) =
      ⟨"Answers Question", ⟨true, 1⟩, some ⟨true, 1⟩⟩ := by
  refine ⟨?_, rfl, rfl, by simp [RAGWorkflow.check_hallucinations, idealCaps]⟩
  norm_num [GraphEngine.run, GraphEngine.runFrom, RAGWorkflow.retrieve,
    RAGWorkflow.evaluate, RAGWorkflow.confidentJudgment, RAGWorkflow.search_online,
    RAGWorkflow.retrieved_docs_relevant, RAGWorkflow.generate_answer,
    RAGWorkflow.check_hallucinations, idealCaps, idealFinal]

/-- C10: a judgment built without an explicit confidence takes the model's
default `relevance_score = 0.5`, which lies in `[0, 1]`; since
`0.5 < 0.75`, Evaluate drops such a document from the filtered set while
still recording its judgment in `document_evaluations` (the ratio's
denominator) with `confidentJudgment` false (so it does not count toward
the confident numerator). -/
theorem default_confidence_document_dropped (b : Bool)
    (judge : String → String → Option EvaluationModel) (q : String)
    (docs : List Document) (u : RAGWorkflow.EvaluateUpdate) (d : Document)
    (hd : d ∈ docs)
    (hj : judge q d.page_content = some { score := b })
    (hu : RAGWorkflow.evaluate judge q docs = some u) :
    ({ score := b } : EvaluationModel).relevance_score = 1/2 ∧
    (0 ≤ ({ score := b } : EvaluationModel).relevance_score ∧
      ({ score := b } : EvaluationModel).relevance_score ≤ 1) ∧
    d ∉ u.documents ∧
    RAGWorkflow.confidentJudgment (judge q d.page_content) = false ∧
    some ({ score := b } : EvaluationModel) ∈ u.document_evaluations := by
  have hnc : RAGWorkflow.confidentJudgment (judge q d.page_content) = false := by
    rw [hj]
    norm_num [RAGWorkflow.confidentJudgment]
  have hne : docs ≠ [] := by
    intro hh
    subst hh
    simp at hd
  have hlen0 : docs.length ≠ 0 := fun hh => hne (List.length_eq_zero.mp hh)
  simp only [RAGWorkflow.evaluate, if_neg hlen0, Option.some.injEq] at hu
  subst hu
  refine ⟨rfl, by norm_num, ?_, hnc, ?_⟩
  · simp [List.mem_filter, hnc]
  · exact List.mem_map.mpr ⟨d, hd, hj⟩

/-- A relevance judge returning a judgment with the default confidence. -/
def judgeDefaultConfidence : String → String → Option EvaluationModel :=
  fun _ _ => some { score := true }

/-- The update `judgeDefaultConfidence` produces on the one-document
list: the document is dropped and the search flag raised. -/
def defaultConfidenceUpdate : RAGWorkflow.EvaluateUpdate :=
  ⟨[], "q", true, [some { score := true }]⟩

/-- Witness for C10 at a concrete default-confidence judgment. -/
theorem default_confidence_document_dropped_witness :
    ({ score := true } : EvaluationModel).relevance_score = 1/2 ∧
    (0 ≤ ({ score := true } : EvaluationModel).relevance_score ∧
      ({ score := true } : EvaluationModel).relevance_score ≤ 1) ∧
    (⟨"a"⟩ : Document) ∉ defaultConfidenceUpdate.documents ∧
    RAGWorkflow.confidentJudgment
      (judgeDefaultConfidence "q" (Document.mk "a").page_content) = false ∧
    some ({ score := true } : EvaluationModel) ∈
      defaultConfidenceUpdate.document_evaluations :=
  default_confidence_document_dropped true judgeDefaultConfidence "q"
    [⟨"a"⟩] defaultConfidenceUpdate ⟨"a"⟩ (by decide) rfl
    (by
      simp [RAGWorkflow.evaluate, RAGWorkflow.confidentJudgment,
        judgeDefaultConfidence, defaultConfidenceUpdate, List.filter, List.map]
      norm_num)
